import Mathlib

/- Verification of the satGEM internal-wave ray-tracing module
   (ray_tracing_satGEM.py): a shallow embedding over the reals.

   Modelling conventions:
   * machine floats are idealised as real numbers;
   * a sampled value that could be non-finite (NaN) in the data is an
     `Option ℝ`, with `none` for NaN; `np.isfinite` checks become `match`es;
   * the external oceanographic library (gsw) is a black box, passed in as
     plain functions (`OceanLib`), exactly as the spec treats it;
   * `datetime` timestamps are real numbers (seconds);
   * an exception escaping `run_tracing` is modelled by returning `none`
     for the results dictionary. -/

namespace RayTracing

noncomputable section

/-! ## Governing-equation library (source lines 59-166) -/

/-- Kvec: squared magnitude of the wavenumber vector (source line 59). -/
def Kvec (k l m : ℝ) : ℝ := k ^ 2 + l ^ 2 + m ^ 2

/-- dispersion: WKB dispersion relation (source line 66); present in the
source but never called by the stepping loop. -/
def dispersion (f N2 k l m : ℝ) : ℝ :=
  Real.sqrt ((f ^ 2 * m ^ 2 + N2 * (k ^ 2 + l ^ 2)) / (k ^ 2 + l ^ 2 + m ^ 2))

/-- CGz: vertical group speed (source line 77). -/
def CGz (Omega k l m f N2 : ℝ) : ℝ :=
  (-1 * (k ^ 2 + l ^ 2) * m * (N2 - f ^ 2)) / ((k ^ 2 + l ^ 2 + m ^ 2) ^ 2 * Omega)

/-- CGx: horizontal group speed in x, in a flow (source line 86). -/
def CGx (N2 Omega k l m u f : ℝ) : ℝ :=
  (k * m ^ 2 * (N2 - f ^ 2)) / ((k ^ 2 + l ^ 2 + m ^ 2) ^ 2 * Omega) + u

/-- CGy: horizontal group speed in y, in a flow (source line 97). -/
def CGy (N2 Omega k l m v f : ℝ) : ℝ :=
  (l * m ^ 2 * (N2 - f ^ 2)) / ((k ^ 2 + l ^ 2 + m ^ 2) ^ 2 * Omega) + v

/-- refraction: refraction index of an internal wave (source line 117). -/
def refraction (N k l m dN di Omega : ℝ) : ℝ :=
  ((N * (k ^ 2 + l ^ 2)) / ((k ^ 2 + l ^ 2 + m ^ 2) * Omega)) * (dN / di)

/-- dk: change of wavenumber k in time (source line 126). -/
def dk (dU dV dx k l m dN N Omega : ℝ) : ℝ :=
  -1 * (refraction N k l m dN dx Omega + k * (dU / dx) + l * (dV / dx))

/-- dl: change of wavenumber l in time (source line 137). -/
def dl (dU dV dy k l m dN N Omega : ℝ) : ℝ :=
  -1 * (refraction N k l m dN dy Omega + k * (dU / dy) + l * (dV / dy))

/-- dm: change of wavenumber m in time (source line 148). -/
def dm (dU dV dz k l m dN N Omega : ℝ) : ℝ :=
  -1 * (refraction N k l m dN dz Omega + k * (dU / dz) + l * (dV / dz))

/-- dOmega: change in intrinsic frequency (source line 159), transcribed
literally: the source sums `rx + ry + rx`, so the `rz` parameter is unused. -/
def dOmega (rx ry rz k l dU dV : ℝ) : ℝ := (rx + ry + rx) + k * dU + l * dV

/-! ## Geodesy utility (source lines 183-224) -/

/-- Earth radius used by the source, 6371e3 m. -/
def earthRadius : ℝ := 6371e3

/-- np.deg2rad. -/
def deg2rad (x : ℝ) : ℝ := x * (Real.pi / 180)

/-- np.rad2deg. -/
def rad2deg (x : ℝ) : ℝ := x * (180 / Real.pi)

/-- The argument the source hands to np.arccos inside inverse_hav
(source lines 212-214). -/
def hav_arg (x y lat1 : ℝ) : ℝ :=
  1 - 2 * ((Real.sin (Real.sqrt (x ^ 2 + y ^ 2) / (2 * earthRadius)) ^ 2
      - Real.sin ((deg2rad (lat1 + y / 111.11e3) - deg2rad lat1) / 2) ^ 2)
    / (Real.cos (deg2rad lat1) * Real.cos (deg2rad (lat1 + y / 111.11e3))))

/-- inverse_hav (source lines 183-224): converts an (x, y) displacement from
(lon1, lat1) to a new coordinate.  The longitude is an `Option ℝ`:
`none` models the NaN that np.arccos returns outside [-1, 1] and the
non-finite value produced by division by a zero cosine product at the polar
singularity; a `none` (NaN) input longitude propagates to the output.
The latitude is always real: `lat2 = lat1 + y / 111.11e3`. -/
def inverse_hav (x y : ℝ) (lon1 : Option ℝ) (lat1 : ℝ) : Option ℝ × ℝ :=
  let lat2 := lat1 + y / 111.11e3
  let shift : Option ℝ :=
    if Real.cos (deg2rad lat1) * Real.cos (deg2rad lat2) = 0 then none
    else if -1 ≤ hav_arg x y lat1 ∧ hav_arg x y lat1 ≤ 1 then
      some (0.5 * rad2deg (Real.arccos (hav_arg x y lat1)))
    else none
  let lon2 : Option ℝ :=
    match lon1, shift with
    | some L, some sh => some (if x < 0 then L - sh else L + sh)
    | _, _ => none
  (lon2, lat2)

/-! ## Wave (source lines 229-255) -/

/-- The fields of a Wave object that the integrator reads (source lines
247-255).  The empty history lists the constructor also creates are never
read by run_tracing and are omitted. -/
structure Wave where
  k : ℝ
  m : ℝ
  l : ℝ
  w0 : ℝ
  kh : ℝ
  z0 : ℝ
  lat0 : ℝ
  lon0 : ℝ
  t0 : ℝ

/-- Timestamp (seconds since the Unix epoch) of the hard-coded
datetime(2012, 11, 2, 3, 0, 0) that Wave.__init__ always stores in self.t0
(source line 255). -/
def wave_hardcoded_t0 : ℝ := 1351825200

/-- Wave.__init__ (source lines 241-255), transcribed literally with the
parameters in the source's order (k, l, t0, m, w0, z0, lat, lon):
`self.m` is assigned the `l` argument and `self.l` the `m` argument
(source lines 248-249), `self.kh` is therefore sqrt(k² + m²) in terms of the
arguments, and `self.t0` is assigned the hard-coded date, ignoring the `t0`
argument (source line 255). -/
def mkWave (k l : ℝ) (t0 : ℝ) (m w0 z0 lat lon : ℝ) : Wave :=
  { k := k
    m := l
    l := m
    w0 := w0
    kh := Real.sqrt (k ^ 2 + m ^ 2)
    z0 := z0
    lat0 := lat
    lon0 := lon
    t0 := wave_hardcoded_t0 }

/-! ## satGEM field (source lines 313-382) -/

/-- satGEM_field: the 4-D data arrays, indexed (lon, lat, depth, time),
with entries `Option ℝ` (`none` = non-finite), and the coordinate grids,
including the staggered centerlat/centerlon velocity grids. -/
structure SatGEMField where
  u : ℕ → ℕ → ℕ → ℕ → Option ℝ
  v : ℕ → ℕ → ℕ → ℕ → Option ℝ
  temp : ℕ → ℕ → ℕ → ℕ → Option ℝ
  sal : ℕ → ℕ → ℕ → ℕ → Option ℝ
  time : List ℝ
  depth_grid : List ℝ
  lon : List ℝ
  lat : List ℝ
  centerlat : List ℝ
  centerlon : List ℝ

/-- The external oceanographic library (gsw), treated as pure black-box
functions per the spec: `f` maps latitude to the Coriolis parameter;
`Nsquared` maps a salinity column, a temperature column and the depth grid
to the pair (N2 profile, pressure grid), with possibly non-finite profile
entries. -/
structure OceanLib where
  f : ℝ → ℝ
  Nsquared : (ℕ → Option ℝ) → (ℕ → Option ℝ) → (ℕ → ℝ) → List (Option ℝ) × List ℝ

/-- Helper for np.argmin: scans the remaining entries carrying the current
best index and best value, replacing the best only on a strict improvement
(np.argmin returns the first minimising index). -/
def argminAbsAux (x : ℝ) : List ℝ → ℕ → ℕ → ℝ → ℕ
  | [], _, bi, _ => bi
  | a :: rest, i, bi, bv =>
    if |a - x| < bv then argminAbsAux x rest (i + 1) i |a - x|
    else argminAbsAux x rest (i + 1) bi bv

/-- np.argmin(np.abs(grid - x)): index of the first entry of `g` minimising
the absolute difference to `x` (0 on an empty grid). -/
def argminAbs (g : List ℝ) (x : ℝ) : ℕ :=
  match g with
  | [] => 0
  | a :: rest => argminAbsAux x rest 1 0 |a - x|

/-- argmin against a possibly-NaN query: with a NaN query every difference
is NaN and np.argmin returns index 0. -/
def argminAbsO (g : List ℝ) : Option ℝ → ℕ
  | none => 0
  | some x => argminAbs g x

/-- satGEM_field.locate (source lines 347-382): nearest indices on the four
primary axes plus the staggered centerlon/centerlat velocity axes, in the
source's return order (lon, lat, depth, time, centerlon, centerlat). -/
def locate (gem : SatGEMField) (lon : Option ℝ) (lat z t : ℝ) :
    ℕ × ℕ × ℕ × ℕ × ℕ × ℕ :=
  (argminAbsO gem.lon lon, argminAbs gem.lat lat, argminAbs gem.depth_grid z,
   argminAbs gem.time t, argminAbsO gem.centerlon lon, argminAbs gem.centerlat lat)

/-- Velocity sampling of the eastward component exactly as the source indexes
it (lines 510 and 553): primary longitude index, staggered latitude index. -/
def sampledU (gem : SatGEMField) (lon_idx lat_idx z_idx t_idx clon_idx clat_idx : ℕ) :
    Option ℝ :=
  gem.u lon_idx clat_idx z_idx t_idx

/-- Velocity sampling of the northward component exactly as the source indexes
it (lines 511 and 554): staggered longitude index, primary latitude index. -/
def sampledV (gem : SatGEMField) (lon_idx lat_idx z_idx t_idx clon_idx clat_idx : ℕ) :
    Option ℝ :=
  gem.v clon_idx lat_idx z_idx t_idx

/-! ## Ray integrator (source lines 422-619) -/

/-- The locals of the run_tracing loop: the current scalars, the history
lists, the count of started loop iterations (the source's `i + 1`), and the
wave/field objects threaded through so that mutation (or its absence) is
observable. The current longitude is `Option ℝ` because inverse_hav can
return NaN for it. -/
structure LoopState where
  x : ℝ
  y : ℝ
  z : ℝ
  k : ℝ
  l : ℝ
  m : ℝ
  Omega : ℝ
  lon : Option ℝ
  lat : ℝ
  xs : List ℝ
  ys : List ℝ
  zs : List ℝ
  ks : List ℝ
  ls : List ℝ
  ms : List ℝ
  oms : List ℝ
  lats : List ℝ
  lons : List (Option ℝ)
  cgxs : List ℝ
  cgys : List ℝ
  cgzs : List ℝ
  steps : ℕ
  wave : Wave
  gem : SatGEMField

/-- The results dictionary of run_tracing (source lines 602-617). -/
structure TraceResult where
  x : List ℝ
  y : List ℝ
  z : List ℝ
  k : List ℝ
  l : List ℝ
  m : List ℝ
  omega : List ℝ
  lon : List (Option ℝ)
  lat : List ℝ
  CGx : List ℝ
  CGy : List ℝ
  CGz : List ℝ
  time : List ℝ

/-- One pass over the run_tracing loop (source lines 489-599), iterating the
pairs (time[i], time[i+1]).  A `break` is modelled by returning the state
(the source breaks before appending, so the history lists are unchanged).
Notes kept faithful to the source:
* the second buoyancy profile (source lines 544-547) is computed from the
  SAME (previous) indices as the first, not the freshly located ones;
* k is updated before l, l before m, and the refraction terms use the
  updated k, l, m but the not-yet-updated Omega, exactly as in the source;
* the source reads N2_vert2[idx_n2], u2 and v2 with no finiteness check:
  a non-finite value there would propagate NaN through k, l, m, Omega
  without stopping the loop; the embedding reads the value with a default
  (`getD`), and no theorem below exercises that corner. -/
def traceLoop (lib : OceanLib) (tstep : ℝ) :
    List (ℝ × ℝ) → LoopState → LoopState
  | [], s => s
  | (t, tnext) :: rest, s0 =>
    let s := { s0 with steps := s0.steps + 1 }
    let f := lib.f s.lat
    let ids := locate s.gem s.lon s.lat s.z t
    let lon_idx := ids.1
    let lat_idx := ids.2.1
    let z_idx := ids.2.2.1
    let t_idx := ids.2.2.2.1
    let clon_idx := ids.2.2.2.2.1
    let clat_idx := ids.2.2.2.2.2
    let NP := lib.Nsquared (fun d => s.gem.sal lon_idx lat_idx d t_idx)
      (fun d => s.gem.temp lon_idx lat_idx d t_idx)
      (fun d => s.gem.depth_grid.getD d 0)
    let idx_n := argminAbs NP.2 s.z
    match NP.1.getD idx_n none with
    | none => s
    | some N2 =>
      match sampledU s.gem lon_idx lat_idx z_idx t_idx clon_idx clat_idx with
      | none => s
      | some u =>
        match sampledV s.gem lon_idx lat_idx z_idx t_idx clon_idx clat_idx with
        | none => s
        | some v =>
          let dx := tstep * CGx N2 s.Omega s.k s.l s.m u f
          let x := s.x + dx
          let dy := tstep * CGy N2 s.Omega s.k s.l s.m v f
          let y := s.y + dy
          let dz := tstep * CGz s.Omega s.k s.l s.m f N2
          let z := s.z + dz
          let ll2 := inverse_hav x y s.lon s.lat
          let ids2 := locate s.gem ll2.1 ll2.2 z tnext
          let lon_idx2 := ids2.1
          let lat_idx2 := ids2.2.1
          let z_idx2 := ids2.2.2.1
          let t_idx2 := ids2.2.2.2.1
          let clon_idx2 := ids2.2.2.2.2.1
          let clat_idx2 := ids2.2.2.2.2.2
          let NP2 := lib.Nsquared (fun d => s.gem.sal lon_idx lat_idx d t_idx)
            (fun d => s.gem.temp lon_idx lat_idx d t_idx)
            (fun d => s.gem.depth_grid.getD d 0)
          let idx_n2 := argminAbs NP2.2 z
          let N2_2 := |(NP2.1.getD idx_n2 none).getD 0|
          let dN := Real.sqrt N2_2 - Real.sqrt |N2|
          let u2 := sampledU s.gem lon_idx2 lat_idx2 z_idx2 t_idx2 clon_idx2 clat_idx2
          let v2 := sampledV s.gem lon_idx2 lat_idx2 z_idx2 t_idx2 clon_idx2 clat_idx2
          let du := u2.getD 0 - u
          let dv := v2.getD 0 - v
          let k1 := s.k + dk du dv dx s.k s.l s.m dN (Real.sqrt N2_2) s.Omega * tstep
          let l1 := s.l + dl du dv dy k1 s.l s.m dN (Real.sqrt N2_2) s.Omega * tstep
          let m1 := s.m + dm du dv dz k1 l1 s.m dN (Real.sqrt N2_2) s.Omega * tstep
          let rx := refraction (Real.sqrt N2_2) k1 l1 m1 dN dx s.Omega
          let ry := refraction (Real.sqrt N2_2) k1 l1 m1 dN dy s.Omega
          let rz := refraction (Real.sqrt N2_2) k1 l1 m1 dN dz s.Omega
          let Omega1 := s.Omega + dOmega rx ry rz k1 l1 du dv * tstep
          if z < 0 then
            { s with
              x := x, y := y, z := z, k := k1, l := l1, m := m1,
              Omega := Omega1, lon := ll2.1, lat := ll2.2 }
          else
            traceLoop lib tstep rest
              { s with
                x := x, y := y, z := z, k := k1, l := l1, m := m1,
                Omega := Omega1, lon := ll2.1, lat := ll2.2,
                xs := s.xs ++ [x], ys := s.ys ++ [y], zs := s.zs ++ [z],
                ks := s.ks ++ [k1], ls := s.ls ++ [l1], ms := s.ms ++ [m1],
                oms := s.oms ++ [Omega1], lats := s.lats ++ [ll2.2],
                lons := s.lons ++ [ll2.1],
                cgxs := s.cgxs ++ [dx / tstep], cgys := s.cgys ++ [dy / tstep],
                cgzs := s.cgzs ++ [dz / tstep] }

/-- The initial loop state (source lines 436-469): the wave fields are read
into locals, x = y = 0, and the history lists are seeded with the start
values; the group-velocity lists start empty. -/
def initState (wave : Wave) (gem : SatGEMField) : LoopState :=
  { x := 0, y := 0, z := wave.z0, k := wave.k, l := wave.l, m := wave.m,
    Omega := wave.w0, lon := some wave.lon0, lat := wave.lat0,
    xs := [0], ys := [0], zs := [wave.z0], ks := [wave.k], ls := [wave.l],
    ms := [wave.m], oms := [wave.w0], lats := [wave.lat0],
    lons := [some wave.lon0],
    cgxs := [], cgys := [], cgzs := [], steps := 0, wave := wave, gem := gem }

/-- np.arange over timestamps (source line 481): start, start + step, ...
while strictly before stop; the length is the ceiling of (stop-start)/step. -/
def timeVec (start stop step : ℝ) : List ℝ :=
  (List.range (⌈(stop - start) / step⌉.toNat)).map (fun i => start + i * step)

/-- run_tracing (source lines 422-619).  duration is in hours, tstep in
seconds; direction "reverse" negates the step and walks backward.  Returns
the results dictionary together with the wave and field objects threaded
through the loop.  The dictionary is `none` when its assembly raises in the
source: np.vstack raises ValueError on the empty group-velocity lists (and
`time[:i+1]` raises NameError when the loop never ran), which happens
exactly when no iteration completed without a break.  The source's initial
locate call (lines 485-486) is dead (recomputed at the top of the loop) and
is omitted; the isinstance guards (lines 429-433) are enforced by typing. -/
def run_tracing (lib : OceanLib) (wave : Wave) (satGEM : SatGEMField)
    (time_direction : String) (duration tstep : ℝ) :
    Option TraceResult × Wave × SatGEMField :=
  let start_time := wave.t0
  let end_time := if time_direction = "reverse" then start_time - duration * 3600
    else start_time + duration * 3600
  let tstep1 := if time_direction = "reverse" then -tstep else tstep
  let time := timeVec start_time end_time tstep1
  let fin := traceLoop lib tstep1 (time.zip time.tail) (initState wave satGEM)
  let res : Option TraceResult :=
    if fin.cgxs = [] then none
    else some
      { x := fin.xs, y := fin.ys, z := fin.zs, k := fin.ks, l := fin.ls,
        m := fin.ms, omega := fin.oms, lon := fin.lons, lat := fin.lats,
        CGx := fin.cgxs, CGy := fin.cgys, CGz := fin.cgzs,
        time := time.take fin.steps }
  (res, fin.wave, fin.gem)

/-! ## Spec-modelled variant for the step-5 re-query claim -/

/-- Modelled from the spec: "Re-query Field Volume at the new position/time
to obtain N2', u', v'".  Identical to `traceLoop` except that the second
buoyancy profile is computed at the freshly located indices
(lon_idx2, lat_idx2, t_idx2), the way the spec says and the way the source
samples u2 and v2.  Used only to compare against the source's behaviour. -/
def traceLoop_requeryN2 (lib : OceanLib) (tstep : ℝ) :
    List (ℝ × ℝ) → LoopState → LoopState
  | [], s => s
  | (t, tnext) :: rest, s0 =>
    let s := { s0 with steps := s0.steps + 1 }
    let f := lib.f s.lat
    let ids := locate s.gem s.lon s.lat s.z t
    let lon_idx := ids.1
    let lat_idx := ids.2.1
    let z_idx := ids.2.2.1
    let t_idx := ids.2.2.2.1
    let clon_idx := ids.2.2.2.2.1
    let clat_idx := ids.2.2.2.2.2
    let NP := lib.Nsquared (fun d => s.gem.sal lon_idx lat_idx d t_idx)
      (fun d => s.gem.temp lon_idx lat_idx d t_idx)
      (fun d => s.gem.depth_grid.getD d 0)
    let idx_n := argminAbs NP.2 s.z
    match NP.1.getD idx_n none with
    | none => s
    | some N2 =>
      match sampledU s.gem lon_idx lat_idx z_idx t_idx clon_idx clat_idx with
      | none => s
      | some u =>
        match sampledV s.gem lon_idx lat_idx z_idx t_idx clon_idx clat_idx with
        | none => s
        | some v =>
          let dx := tstep * CGx N2 s.Omega s.k s.l s.m u f
          let x := s.x + dx
          let dy := tstep * CGy N2 s.Omega s.k s.l s.m v f
          let y := s.y + dy
          let dz := tstep * CGz s.Omega s.k s.l s.m f N2
          let z := s.z + dz
          let ll2 := inverse_hav x y s.lon s.lat
          let ids2 := locate s.gem ll2.1 ll2.2 z tnext
          let lon_idx2 := ids2.1
          let lat_idx2 := ids2.2.1
          let z_idx2 := ids2.2.2.1
          let t_idx2 := ids2.2.2.2.1
          let clon_idx2 := ids2.2.2.2.2.1
          let clat_idx2 := ids2.2.2.2.2.2
          let NP2 := lib.Nsquared (fun d => s.gem.sal lon_idx2 lat_idx2 d t_idx2)
            (fun d => s.gem.temp lon_idx2 lat_idx2 d t_idx2)
            (fun d => s.gem.depth_grid.getD d 0)
          let idx_n2 := argminAbs NP2.2 z
          let N2_2 := |(NP2.1.getD idx_n2 none).getD 0|
          let dN := Real.sqrt N2_2 - Real.sqrt |N2|
          let u2 := sampledU s.gem lon_idx2 lat_idx2 z_idx2 t_idx2 clon_idx2 clat_idx2
          let v2 := sampledV s.gem lon_idx2 lat_idx2 z_idx2 t_idx2 clon_idx2 clat_idx2
          let du := u2.getD 0 - u
          let dv := v2.getD 0 - v
          let k1 := s.k + dk du dv dx s.k s.l s.m dN (Real.sqrt N2_2) s.Omega * tstep
          let l1 := s.l + dl du dv dy k1 s.l s.m dN (Real.sqrt N2_2) s.Omega * tstep
          let m1 := s.m + dm du dv dz k1 l1 s.m dN (Real.sqrt N2_2) s.Omega * tstep
          let rx := refraction (Real.sqrt N2_2) k1 l1 m1 dN dx s.Omega
          let ry := refraction (Real.sqrt N2_2) k1 l1 m1 dN dy s.Omega
          let rz := refraction (Real.sqrt N2_2) k1 l1 m1 dN dz s.Omega
          let Omega1 := s.Omega + dOmega rx ry rz k1 l1 du dv * tstep
          if z < 0 then
            { s with
              x := x, y := y, z := z, k := k1, l := l1, m := m1,
              Omega := Omega1, lon := ll2.1, lat := ll2.2 }
          else
            traceLoop_requeryN2 lib tstep rest
              { s with
                x := x, y := y, z := z, k := k1, l := l1, m := m1,
                Omega := Omega1, lon := ll2.1, lat := ll2.2,
                xs := s.xs ++ [x], ys := s.ys ++ [y], zs := s.zs ++ [z],
                ks := s.ks ++ [k1], ls := s.ls ++ [l1], ms := s.ms ++ [m1],
                oms := s.oms ++ [Omega1], lats := s.lats ++ [ll2.2],
                lons := s.lons ++ [ll2.1],
                cgxs := s.cgxs ++ [dx / tstep], cgys := s.cgys ++ [dy / tstep],
                cgzs := s.cgzs ++ [dz / tstep] }

/-- run_tracing built on the spec-modelled loop `traceLoop_requeryN2`;
otherwise identical to `run_tracing`. -/
def run_tracing_requeryN2 (lib : OceanLib) (wave : Wave) (satGEM : SatGEMField)
    (time_direction : String) (duration tstep : ℝ) :
    Option TraceResult × Wave × SatGEMField :=
  let start_time := wave.t0
  let end_time := if time_direction = "reverse" then start_time - duration * 3600
    else start_time + duration * 3600
  let tstep1 := if time_direction = "reverse" then -tstep else tstep
  let time := timeVec start_time end_time tstep1
  let fin := traceLoop_requeryN2 lib tstep1 (time.zip time.tail) (initState wave satGEM)
  let res : Option TraceResult :=
    if fin.cgxs = [] then none
    else some
      { x := fin.xs, y := fin.ys, z := fin.zs, k := fin.ks, l := fin.ls,
        m := fin.ms, omega := fin.oms, lon := fin.lons, lat := fin.lats,
        CGx := fin.cgxs, CGy := fin.cgys, CGz := fin.cgzs,
        time := time.take fin.steps }
  (res, fin.wave, fin.gem)

/-! ## Concrete environments used to test the loop

A single-cell grid makes every `locate` query return index 0 (the clamp
behaviour the spec documents), so the loop's dynamics can be computed in
closed form; the black-box library functions are instantiated with constant
or pass-through values. -/

/-- A field whose arrays are constant (u0, v0 for the velocities, 0 for
temperature and salinity) with single-cell grids everywhere. -/
def constGem (u0 v0 : Option ℝ) : SatGEMField :=
  { u := fun _ _ _ _ => u0, v := fun _ _ _ _ => v0,
    temp := fun _ _ _ _ => some 0, sal := fun _ _ _ _ => some 0,
    time := [0], depth_grid := [0], lon := [0], lat := [0],
    centerlat := [0], centerlon := [0] }

/-- A library with a constant Coriolis parameter f0 and a constant
single-entry buoyancy profile n2. -/
def constLib (f0 : ℝ) (n2 : Option ℝ) : OceanLib :=
  { f := fun _ => f0, Nsquared := fun _ _ _ => ([n2], [0]) }

/-- Wave used for the seafloor-check claim: k = 1, l = 0, m = -1, Omega = 1,
z0 = 100; with N2 = 1e7 and f = 0 this gives CGz = 2.5e6 m/s upward-negative
convention aside, so z grows by 2.5e7 m per 10 s step. -/
def c3wave : Wave :=
  { k := 1, m := -1, l := 0, w0 := 1, kh := 0, z0 := 100,
    lat0 := 0, lon0 := 0, t0 := 0 }

/-- Wave used to exhibit the surface check: k = 1, l = 0, m = 1, Omega = 1,
z0 = 100; with N2 = 24 and f = 0 this gives CGz = -6 m/s, so z decreases by
60 m per 10 s step and goes negative on the second step. -/
def c3wave2 : Wave :=
  { k := 1, m := 1, l := 0, w0 := 1, kh := 0, z0 := 100,
    lat0 := 0, lon0 := 0, t0 := 0 }

/-- Wave violating the claimed invariant |Omega| > |f|: Omega = 1 while the
accompanying library has f = 10 everywhere; z0 = 1000. -/
def c4wave : Wave :=
  { k := 1, m := 1, l := 0, w0 := 1, kh := 0, z0 := 1000,
    lat0 := 0, lon0 := 0, t0 := 0 }

/-- Field for the step-5 re-query claim: salinity depends on the time
index (4 at time index 0, 9 at time index 1); the time grid has two points
so the freshly located time index differs from the previous one. -/
def c5gem : SatGEMField :=
  { u := fun _ _ _ _ => some 0, v := fun _ _ _ _ => some 1,
    temp := fun _ _ _ _ => some 0,
    sal := fun _ _ _ ti => some (4 + 5 * ti),
    time := [0, 10], depth_grid := [0], lon := [0], lat := [0],
    centerlat := [0], centerlon := [0] }

/-- Library for the step-5 re-query claim: the buoyancy profile passes the
first salinity-column entry through, so the profile value exposes which
indices the column was sliced at. -/
def c5lib : OceanLib :=
  { f := fun _ => 0, Nsquared := fun sc _ _ => ([sc 0], [0]) }

/-- Wave for the step-5 re-query claim: k = 1, l = 0, m = 1, Omega = 1. -/
def c5wave : Wave :=
  { k := 1, m := 1, l := 0, w0 := 1, kh := 0, z0 := 100,
    lat0 := 0, lon0 := 0, t0 := 0 }

/-- Wave for the NaN-velocity claim. -/
def c6wave : Wave :=
  { k := 1, m := 1, l := 1, w0 := 1, kh := 0, z0 := 100,
    lat0 := 0, lon0 := 0, t0 := 0 }

/-- Field for the staggered-indexing claim: u depends only on its second
(latitude-position) index, v only on its first (longitude-position) index,
so collapsing the staggered indexing changes the sampled values. -/
def c9gem : SatGEMField :=
  { u := fun _ bi _ _ => some bi, v := fun li _ _ _ => some li,
    temp := fun _ _ _ _ => some 0, sal := fun _ _ _ _ => some 0,
    time := [0], depth_grid := [0], lon := [0], lat := [0],
    centerlat := [0], centerlon := [0] }

/-- Closed form of one non-breaking loop step in a constant environment
(single-cell grids, constant velocities u0/v0, constant Coriolis parameter
f0, constant single-entry buoyancy profile c): the wavenumbers and the
frequency are unchanged because dN = du = dv = 0, and the position advances
by the (constant) group velocities.  Proven equal to a traceLoop step in
`traceLoop_const_step` below. -/
def constStep (f0 c u0 v0 ts : ℝ) (s : LoopState) : LoopState :=
  let dx := ts * CGx c s.Omega s.k s.l s.m u0 f0
  let dy := ts * CGy c s.Omega s.k s.l s.m v0 f0
  let dz := ts * CGz s.Omega s.k s.l s.m f0 c
  let ll := inverse_hav (s.x + dx) (s.y + dy) s.lon s.lat
  { s with
    steps := s.steps + 1,
    x := s.x + dx, y := s.y + dy, z := s.z + dz,
    lon := ll.1, lat := ll.2,
    xs := s.xs ++ [s.x + dx], ys := s.ys ++ [s.y + dy], zs := s.zs ++ [s.z + dz],
    ks := s.ks ++ [s.k], ls := s.ls ++ [s.l], ms := s.ms ++ [s.m],
    oms := s.oms ++ [s.Omega], lats := s.lats ++ [ll.2], lons := s.lons ++ [ll.1],
    cgxs := s.cgxs ++ [dx / ts], cgys := s.cgys ++ [dy / ts],
    cgzs := s.cgzs ++ [dz / ts] }

/-! ## Helper lemmas -/

/-- With zero dN the refraction term vanishes. -/
theorem refraction_dN_zero (N k l m di Omega : ℝ) :
    refraction N k l m 0 di Omega = 0 := by
  simp [refraction]

/-- With zero velocity differences and zero dN the k update vanishes. -/
theorem dk_zero (dx k l m N Omega : ℝ) : dk 0 0 dx k l m 0 N Omega = 0 := by
  simp [dk, refraction]

/-- With zero velocity differences and zero dN the l update vanishes. -/
theorem dl_zero (dy k l m N Omega : ℝ) : dl 0 0 dy k l m 0 N Omega = 0 := by
  simp [dl, refraction]

/-- With zero velocity differences and zero dN the m update vanishes. -/
theorem dm_zero (dz k l m N Omega : ℝ) : dm 0 0 dz k l m 0 N Omega = 0 := by
  simp [dm, refraction]

/-- With vanishing refraction terms and velocity differences the Omega
update vanishes. -/
theorem dOmega_zero (k l : ℝ) : dOmega 0 0 0 k l 0 0 = 0 := by
  simp [dOmega]

/-- On a single-cell grid argmin is 0 for every query. -/
theorem argminAbs_singleton (a x : ℝ) : argminAbs [a] x = 0 := rfl

/-- On a single-cell grid the NaN-tolerant argmin is 0 for every query,
including a NaN one. -/
theorem argminAbsO_singleton (a : ℝ) (o : Option ℝ) : argminAbsO [a] o = 0 := by
  cases o <;> rfl

/-- On the two-point grid [0, 10] the query 0 locates index 0. -/
theorem argminAbs_pair_zero : argminAbs [(0 : ℝ), 10] 0 = 0 := by
  have h : ¬ (|(10 : ℝ) - 0| < |(0 : ℝ) - 0|) := by
    rw [sub_self, abs_zero]
    exact not_lt.mpr (abs_nonneg _)
  unfold argminAbs argminAbsAux
  rw [if_neg h]
  rfl

/-- On the two-point grid [0, 10] the query 10 locates index 1. -/
theorem argminAbs_pair_ten : argminAbs [(0 : ℝ), 10] 10 = 1 := by
  have h : |(10 : ℝ) - 10| < |(0 : ℝ) - 10| := by
    rw [sub_self, abs_zero]
    exact abs_pos.mpr (by norm_num)
  unfold argminAbs argminAbsAux
  rw [if_pos h]
  rfl

/-- The latitude component of inverse_hav in closed form. -/
theorem inverse_hav_snd (x y : ℝ) (lon1 : Option ℝ) (lat1 : ℝ) :
    (inverse_hav x y lon1 lat1).2 = lat1 + y / 111.11e3 := rfl

/-- One non-breaking step of the loop in a constant environment equals the
closed-form `constStep`: the wavenumber and frequency updates all vanish
because dN = du = dv = 0 there. -/
theorem traceLoop_const_step (f0 c u0 v0 ts t tn : ℝ) (rest : List (ℝ × ℝ))
    (s : LoopState) (hgem : s.gem = constGem (some u0) (some v0))
    (hz : ¬ (s.z + ts * CGz s.Omega s.k s.l s.m f0 c < 0)) :
    traceLoop (constLib f0 (some c)) ts ((t, tn) :: rest) s =
      traceLoop (constLib f0 (some c)) ts rest (constStep f0 c u0 v0 ts s) := by
  simp only [traceLoop, hgem, constLib, constGem, locate, argminAbs_singleton,
    argminAbsO_singleton, sampledU, sampledV, List.getD_cons_zero, Option.getD_some,
    sub_self, refraction_dN_zero, dk_zero, dl_zero, dm_zero, dOmega_zero,
    zero_mul, add_zero, mul_zero]
  rw [if_neg hz]
  simp only [constStep]
  congr 1
  rw [hgem]
  simp only [constGem]

/-- A breaking step of the loop in a constant environment: when the updated
z is negative the loop stops, carrying the updated scalars but appending
nothing to the history lists and discarding the remaining time pairs. -/
theorem traceLoop_const_breakstep (f0 c u0 v0 ts t tn : ℝ) (rest : List (ℝ × ℝ))
    (s : LoopState) (hgem : s.gem = constGem (some u0) (some v0))
    (hz : s.z + ts * CGz s.Omega s.k s.l s.m f0 c < 0) :
    traceLoop (constLib f0 (some c)) ts ((t, tn) :: rest) s =
      { s with
        steps := s.steps + 1,
        x := s.x + ts * CGx c s.Omega s.k s.l s.m u0 f0,
        y := s.y + ts * CGy c s.Omega s.k s.l s.m v0 f0,
        z := s.z + ts * CGz s.Omega s.k s.l s.m f0 c,
        lon := (inverse_hav (s.x + ts * CGx c s.Omega s.k s.l s.m u0 f0)
          (s.y + ts * CGy c s.Omega s.k s.l s.m v0 f0) s.lon s.lat).1,
        lat := (inverse_hav (s.x + ts * CGx c s.Omega s.k s.l s.m u0 f0)
          (s.y + ts * CGy c s.Omega s.k s.l s.m v0 f0) s.lon s.lat).2 } := by
  simp only [traceLoop, hgem, constLib, constGem, locate, argminAbs_singleton,
    argminAbsO_singleton, sampledU, sampledV, List.getD_cons_zero, Option.getD_some,
    sub_self, refraction_dN_zero, dk_zero, dl_zero, dm_zero, dOmega_zero,
    zero_mul, add_zero, mul_zero]
  rw [if_pos hz]

/-- The loop never writes the wave object: every branch threads it through. -/
theorem traceLoop_wave_eq (lib : OceanLib) (ts : ℝ) :
    ∀ (ps : List (ℝ × ℝ)) (s : LoopState), (traceLoop lib ts ps s).wave = s.wave := by
  intro ps
  induction ps with
  | nil => intro s; rfl
  | cons p rest ih =>
    intro s
    obtain ⟨t, tnext⟩ := p
    simp only [traceLoop]
    split
    · rfl
    · split
      · rfl
      · split
        · rfl
        · split
          · rfl
          · exact (ih _).trans rfl

/-- The loop never writes the satGEM field object either. -/
theorem traceLoop_gem_eq (lib : OceanLib) (ts : ℝ) :
    ∀ (ps : List (ℝ × ℝ)) (s : LoopState), (traceLoop lib ts ps s).gem = s.gem := by
  intro ps
  induction ps with
  | nil => intro s; rfl
  | cons p rest ih =>
    intro s
    obtain ⟨t, tnext⟩ := p
    simp only [traceLoop]
    split
    · rfl
    · split
      · rfl
      · split
        · rfl
        · split
          · rfl
          · exact (ih _).trans rfl

/-! ## Claims -/

/-- C1: the claim says the integrator updates Omega by
Δt·(rx + ry + rz + k·du + l·dv).  The source's dOmega instead sums
rx + ry + rx, repeating rx and omitting rz (the rz parameter is unused), so
at rx = 1, ry = 0, rz = 2 (k = l = du = dv = 0) it yields 2 where the claim
requires 3. -/
theorem c1_dOmega_repeats_rx :
    (∀ rx ry rz k l dU dV : ℝ,
        dOmega rx ry rz k l dU dV = rx + ry + rx + k * dU + l * dV) ∧
    dOmega 1 0 2 0 0 0 0 ≠ 1 + 0 + 2 + 0 * 0 + 0 * 0 := by
  constructor
  · intro rx ry rz k l dU dV; rfl
  · norm_num [dOmega]

/-- C2: the claim says Wave construction stores every argument in its own
field.  With arguments k = 1, l = 2, m = 3, w0 = 4, z0 = 5, lat = 6,
lon = 7, t0 = 8 (in the source's parameter order mkWave 1 2 8 3 4 5 6 7),
the k and w0 fields are stored correctly, but the l field receives the m
argument (3), the m field receives the l argument (2), and the t0 field
receives the hard-coded date rather than the t0 argument 8. -/
theorem c2_wave_init_mismatch :
    (mkWave 1 2 8 3 4 5 6 7).k = 1 ∧ (mkWave 1 2 8 3 4 5 6 7).w0 = 4 ∧
    (mkWave 1 2 8 3 4 5 6 7).z0 = 5 ∧
    (mkWave 1 2 8 3 4 5 6 7).l = 3 ∧ (mkWave 1 2 8 3 4 5 6 7).m = 2 ∧
    (mkWave 1 2 8 3 4 5 6 7).t0 ≠ 8 := by
  refine ⟨rfl, rfl, rfl, rfl, rfl, ?_⟩
  norm_num [mkWave, wave_hardcoded_t0]

/-- C9: velocity sampling preserves the staggered-grid asymmetry: u is read
at (primary longitude, staggered latitude) and v at (staggered longitude,
primary latitude), at every query; and on a field whose components vary
along those axes the staggered sample really differs from the collapsed
(primary, primary) indexing, so the staggering is not collapsed. -/
theorem c9_staggered_velocity_indexing :
    (∀ (gem : SatGEMField) (li bi zi ti cli cbi : ℕ),
        sampledU gem li bi zi ti cli cbi = gem.u li cbi zi ti ∧
        sampledV gem li bi zi ti cli cbi = gem.v cli bi zi ti) ∧
    sampledU c9gem 0 0 0 0 1 1 ≠ c9gem.u 0 0 0 0 ∧
    sampledV c9gem 0 0 0 0 1 1 ≠ c9gem.v 0 0 0 0 := by
  refine ⟨fun gem li bi zi ti cli cbi => ⟨rfl, rfl⟩, ?_, ?_⟩ <;>
    simp [sampledU, sampledV, c9gem]

set_option maxHeartbeats 2000000 in
set_option maxRecDepth 8000 in
/-- C3 counterexample: a run in which z exceeds 1,000,000 m (beyond any
configured seafloor depth; the real ocean is under 11,000 m deep) after the
first step and the run nevertheless continues to the full configured
duration: run_tracing performs no seafloor check and takes no seafloor
depth parameter. -/
theorem c3_counterexample_no_seafloor :
    ((run_tracing (constLib 0 (some 10000000)) c3wave (constGem (some 0) (some 1))
      "forward" (1 / 120) 10).1.map TraceResult.z) = some [100, 25000100, 50000100] := by
  have htv : timeVec (0 : ℝ) (0 + 1 / 120 * 3600) 10 = [0, 10, 20] := by
    norm_num [timeVec, List.range_succ, show Int.toNat 3 = 3 from rfl]
  simp only [run_tracing, c3wave,
    show (("forward" : String) = "reverse") = False from by simp, if_false, htv,
    List.zip_cons_cons, List.tail_cons, List.zip_nil_right]
  rw [traceLoop_const_step 0 10000000 0 1 10 0 10 _ _ rfl
      (by norm_num [initState, c3wave, CGz]),
    traceLoop_const_step 0 10000000 0 1 10 10 20 _ _ rfl
      (by norm_num [constStep, initState, c3wave, CGz])]
  simp only [traceLoop]
  rw [if_neg (by simp [constStep])]
  norm_num [constStep, initState, c3wave, CGx, CGy, CGz]

set_option maxHeartbeats 1000000 in
/-- C3 (amended): the only boundary check the integrator performs is the
surface one: when the updated z is negative the loop stops without recording
that state — here the run has three time steps available but the trajectory
ends with [100, 40] because z = -20 on the second step.  There is no
seafloor counterpart (see the counterexample) and run_tracing takes no
seafloor-depth parameter. -/
theorem c3_surface_check_only :
    ((run_tracing (constLib 0 (some 24)) c3wave2 (constGem (some 0) (some 1))
      "forward" (1 / 90) 10).1.map TraceResult.z) = some [100, 40] := by
  have htv : timeVec (0 : ℝ) (0 + 1 / 90 * 3600) 10 = [0, 10, 20, 30] := by
    norm_num [timeVec, List.range_succ, show Int.toNat 4 = 4 from rfl]
  simp only [run_tracing, c3wave2,
    show (("forward" : String) = "reverse") = False from by simp, if_false, htv,
    List.zip_cons_cons, List.tail_cons, List.zip_nil_right]
  rw [traceLoop_const_step 0 24 0 1 10 0 10 _ _ rfl
      (by norm_num [initState, c3wave2, CGz]),
    traceLoop_const_breakstep 0 24 0 1 10 10 20 _ _ rfl
      (by norm_num [constStep, initState, c3wave2, CGz])]
  rw [if_neg (by simp [constStep])]
  norm_num [constStep, initState, c3wave2, CGx, CGy, CGz]

set_option maxHeartbeats 1000000 in
/-- C4 counterexample: a run whose state violates |Omega| > |f| from the
very start (Omega = 1, f = 10 everywhere) still records three states — the
full configured duration — instead of ending with a terminal condition when
the violated state is produced: the integrator has no |Omega| > |f| check. -/
theorem c4_counterexample_runs_despite_violation :
    ((run_tracing (constLib 10 (some 4)) c4wave (constGem (some 0) (some 1))
      "forward" (1 / 120) 10).1.map TraceResult.omega) = some [1, 1, 1] ∧
    |(1 : ℝ)| < |(constLib 10 (some 4)).f 0| := by
  constructor
  · have htv : timeVec (0 : ℝ) (0 + 1 / 120 * 3600) 10 = [0, 10, 20] := by
      norm_num [timeVec, List.range_succ, show Int.toNat 3 = 3 from rfl]
    simp only [run_tracing, c4wave,
      show (("forward" : String) = "reverse") = False from by simp, if_false, htv,
      List.zip_cons_cons, List.tail_cons, List.zip_nil_right]
    rw [traceLoop_const_step 10 4 0 1 10 0 10 _ _ rfl
        (by norm_num [initState, c4wave, CGz]),
      traceLoop_const_step 10 4 0 1 10 10 20 _ _ rfl
        (by norm_num [constStep, initState, c4wave, CGz])]
    simp only [traceLoop]
    rw [if_neg (by simp [constStep])]
    norm_num [constStep, initState, c4wave]
  · norm_num [constLib]

set_option maxHeartbeats 1000000 in
/-- C4 (amended): the integrator performs no |Omega| > |f| check at all;
with |Omega| = 1 < |f| = 10 throughout, the run continues to the full
configured duration with finite values (no NaN arises: the dispersion
relation, the only place a square root of Omega² - f² could appear, is
never evaluated inside the stepping loop). -/
theorem c4_no_invariant_check :
    ((run_tracing (constLib 10 (some 4)) c4wave (constGem (some 0) (some 1))
      "forward" (1 / 120) 10).1.map TraceResult.z) = some [1000, 1240, 1480] := by
  have htv : timeVec (0 : ℝ) (0 + 1 / 120 * 3600) 10 = [0, 10, 20] := by
    norm_num [timeVec, List.range_succ, show Int.toNat 3 = 3 from rfl]
  simp only [run_tracing, c4wave,
    show (("forward" : String) = "reverse") = False from by simp, if_false, htv,
    List.zip_cons_cons, List.tail_cons, List.zip_nil_right]
  rw [traceLoop_const_step 10 4 0 1 10 0 10 _ _ rfl
      (by norm_num [initState, c4wave, CGz]),
    traceLoop_const_step 10 4 0 1 10 10 20 _ _ rfl
      (by norm_num [constStep, initState, c4wave, CGz])]
  simp only [traceLoop]
  rw [if_neg (by simp [constStep])]
  norm_num [constStep, initState, c4wave, CGx, CGy, CGz]

set_option maxHeartbeats 2000000 in
/-- C5: the second buoyancy profile is sampled at the previous indices, not
the new ones.  Here salinity is 4 at time index 0 and 9 at time index 1, the
single step advances the located time index from 0 to 1, and the buoyancy
profile passes the salinity through, so a re-query at the new indices would
give N2' = 9 while the previous indices give N2' = 4.  The source run leaves
k unchanged (dN = sqrt 4 - sqrt 4 = 0 because N2' is taken at the OLD
indices), whereas the spec-modelled re-query variant (u' and v' are sampled
at the new indices in both) changes k to -1/2 (dN = sqrt 9 - sqrt 4 = 1). -/
theorem c5_second_profile_old_indices :
    ((run_tracing c5lib c5wave c5gem "forward" (1 / 180) 10).1.map TraceResult.k)
      = some [1, 1] ∧
    ((run_tracing_requeryN2 c5lib c5wave c5gem "forward" (1 / 180) 10).1.map
      TraceResult.k) = some [1, -(1 / 2)] := by
  have htv : timeVec (0 : ℝ) 20 10 = [0, 10] := by
    norm_num [timeVec, List.range_succ, show Int.toNat 2 = 2 from rfl]
  have h4 : |(4 : ℝ)| = 4 := abs_of_nonneg (by norm_num)
  have h9 : |(9 : ℝ)| = 9 := abs_of_nonneg (by norm_num)
  have hs4 : Real.sqrt 4 = 2 := by
    rw [show (4 : ℝ) = 2 ^ 2 by norm_num, Real.sqrt_sq (by norm_num : (0 : ℝ) ≤ 2)]
  have hs9 : Real.sqrt 9 = 3 := by
    rw [show (9 : ℝ) = 3 ^ 2 by norm_num, Real.sqrt_sq (by norm_num : (0 : ℝ) ≤ 3)]
  constructor
  · norm_num [run_tracing, c5wave,
      show (("forward" : String) = "reverse") = False from by simp, htv,
      List.zip_cons_cons, traceLoop, initState, locate, c5gem, c5lib,
      argminAbs_singleton, argminAbsO_singleton, argminAbs_pair_zero,
      argminAbs_pair_ten, sampledU, sampledV, CGx, CGy, CGz, dk, dl, dm,
      refraction, dOmega, h4, h9, hs4, hs9]
  · norm_num [run_tracing_requeryN2, c5wave,
      show (("forward" : String) = "reverse") = False from by simp, htv,
      List.zip_cons_cons, traceLoop_requeryN2, initState, locate, c5gem, c5lib,
      argminAbs_singleton, argminAbsO_singleton, argminAbs_pair_zero,
      argminAbs_pair_ten, sampledU, sampledV, CGx, CGy, CGz, dk, dl, dm,
      refraction, dOmega, h4, h9, hs4, hs9]

/-- C6 counterexample: with NaN eastward velocity everywhere, run_tracing
does not return a one-record Trajectory with a reason: the first step breaks
before recording anything, the group-velocity lists stay empty, and
assembling the results dictionary then raises in the source (np.vstack of an
empty list), modelled as `none`; the source has no terminal-reason value at
all. -/
theorem c6_counterexample_raises :
    (run_tracing (constLib 0 (some 1)) c6wave (constGem none (some 0))
      "reverse" (1 / 180) 10).1 = none := by
  norm_num [run_tracing, c6wave, timeVec, List.range_succ,
    show Int.toNat 2 = 2 from rfl, traceLoop, initState, locate, constGem, constLib,
    argminAbs_singleton, argminAbsO_singleton, sampledU]

/-- C6 (amended): on the first NaN velocity the loop does stop at once with
only the initial record in the history lists, but the group-velocity lists
are empty, which is exactly the state in which the source's result assembly
raises; no trajectory-plus-reason is produced. -/
theorem c6_first_step_break :
    (traceLoop (constLib 0 (some 1)) (-10) [(0, -10)]
      (initState c6wave (constGem none (some 0)))).zs = [100] ∧
    (traceLoop (constLib 0 (some 1)) (-10) [(0, -10)]
      (initState c6wave (constGem none (some 0)))).cgxs = [] := by
  constructor <;>
    norm_num [traceLoop, initState, c6wave, locate, constGem, constLib,
      argminAbs_singleton, argminAbsO_singleton, sampledU]

/-- C10: run_tracing never mutates its inputs: the wave object and the
satGEM field object threaded through the whole integration come back
exactly as they went in, for every run configuration. -/
theorem c10_no_input_mutation (lib : OceanLib) (wave : Wave) (gem : SatGEMField)
    (dir : String) (duration tstep : ℝ) :
    (run_tracing lib wave gem dir duration tstep).2 = (wave, gem) := by
  simp [run_tracing, traceLoop_wave_eq, traceLoop_gem_eq, initState]

/-! ## Geodesy claims -/

/-- Squares of sines are strictly ordered with their arguments on
[0, π/2]. -/
theorem sin_sq_lt_sin_sq (a b : ℝ) (ha : 0 ≤ a) (hab : a < b)
    (hb : b ≤ Real.pi / 2) : Real.sin a ^ 2 < Real.sin b ^ 2 := by
  have h1 : Real.sin a < Real.sin b := by
    apply Real.strictMonoOn_sin ⟨by nlinarith [Real.pi_pos], by linarith⟩
      ⟨by nlinarith [Real.pi_pos], hb⟩ hab
  have h0 : 0 ≤ Real.sin a :=
    Real.sin_nonneg_of_nonneg_of_le_pi ha (by nlinarith [Real.pi_pos])
  nlinarith

/-- When the haversine sine-square is smaller than the latitude-shift
sine-square and the cosine product is positive, the arccos argument of
inverse_hav exceeds 1 (out of the arccos domain: NaN in numpy). -/
theorem hav_arg_gt_one (x y lat1 : ℝ)
    (h1 : Real.sin (Real.sqrt (x ^ 2 + y ^ 2) / (2 * earthRadius)) ^ 2
        < Real.sin ((deg2rad (lat1 + y / 111.11e3) - deg2rad lat1) / 2) ^ 2)
    (h2 : 0 < Real.cos (deg2rad lat1) * Real.cos (deg2rad (lat1 + y / 111.11e3))) :
    1 < hav_arg x y lat1 := by
  unfold hav_arg
  have h3 := div_neg_of_neg_of_pos (sub_neg.mpr h1) h2
  linarith

/-- For a 1000 m northward displacement from the equator the haversine
half-angle 1000/12742000 is strictly below the latitude-shift half-angle
(1000/111110)·(π/180)/2, because 6371000·π/180 > 111110 (π > 3.1392). -/
theorem c7_angle_lt :
    Real.sqrt ((0 : ℝ) ^ 2 + 1000 ^ 2) / (2 * earthRadius) <
      (deg2rad (0 + 1000 / 111.11e3) - deg2rad 0) / 2 := by
  have h1000 : Real.sqrt ((0 : ℝ) ^ 2 + 1000 ^ 2) = 1000 := by
    rw [show (0 : ℝ) ^ 2 + 1000 ^ 2 = 1000 ^ 2 by norm_num,
      Real.sqrt_sq (by norm_num : (0 : ℝ) ≤ 1000)]
  rw [h1000]
  unfold deg2rad earthRadius
  nlinarith [Real.pi_gt_d6]

/-- C7 counterexample: for the purely northward displacement dy = 1000 m
from (lon, lat) = (0, 0), the longitude returned by inverse_hav is NaN, not
the unchanged lon0: the linear latitude step uses 111110 m/deg while the
haversine distance uses the Earth radius (6371000·π/180 ≈ 111195 m/deg), so
the arccos argument strictly exceeds 1 and np.arccos returns NaN. -/
theorem c7_counterexample_lon_nan :
    (inverse_hav 0 1000 (some 0) 0).1 = none := by
  have h2 : (0 : ℝ) <
      Real.cos (deg2rad 0) * Real.cos (deg2rad (0 + 1000 / 111.11e3)) := by
    rw [show deg2rad 0 = 0 by unfold deg2rad; ring, Real.cos_zero, one_mul]
    apply Real.cos_pos_of_mem_Ioo
    unfold deg2rad
    constructor <;> nlinarith [Real.pi_pos]
  have h1 : Real.sin (Real.sqrt ((0 : ℝ) ^ 2 + 1000 ^ 2) / (2 * earthRadius)) ^ 2
      < Real.sin ((deg2rad (0 + 1000 / 111.11e3) - deg2rad 0) / 2) ^ 2 := by
    apply sin_sq_lt_sin_sq
    · have : (0 : ℝ) ≤ Real.sqrt ((0 : ℝ) ^ 2 + 1000 ^ 2) := Real.sqrt_nonneg _
      unfold earthRadius
      positivity
    · exact c7_angle_lt
    · unfold deg2rad
      nlinarith [Real.pi_pos]
  have harg : 1 < hav_arg 0 1000 0 := hav_arg_gt_one 0 1000 0 h1 h2
  simp only [inverse_hav]
  rw [if_neg (ne_of_gt h2), if_neg (by intro hc; linarith [hc.2])]

/-- C7 (amended): the latitude returned for a purely northward displacement
is shifted by exactly dy/111110 degrees (the true half of the claim); the
longitude is NOT unchanged — for a nonzero northward displacement the
inverse-cosine argument leaves [-1, 1] and the longitude becomes NaN, as the
counterexample shows. -/
theorem c7_latitude_exact (dy lon0 lat0 : ℝ) :
    (inverse_hav 0 dy (some lon0) lat0).2 = lat0 + dy / 111110 := by
  rw [inverse_hav_snd]
  norm_num

/-- C8 counterexample: at the equator, an eastward displacement of one full
circumference 2·π·R (a positive dx) produces a zero longitude shift, not a
positive one: the haversine half-angle is π, whose sine is 0, so the arccos
argument is exactly 1 and the shift is arccos 1 = 0. -/
theorem c8_counterexample_full_circle :
    (inverse_hav (2 * Real.pi * earthRadius) 0 (some 0) 0).1 = some 0 ∧
    0 < 2 * Real.pi * earthRadius := by
  have hR : (0 : ℝ) < 2 * Real.pi * earthRadius := by
    unfold earthRadius
    positivity
  have hd : Real.sqrt ((2 * Real.pi * earthRadius) ^ 2 + 0 ^ 2)
      = 2 * Real.pi * earthRadius := by
    rw [show (2 * Real.pi * earthRadius) ^ 2 + (0 : ℝ) ^ 2
        = (2 * Real.pi * earthRadius) ^ 2 by ring]
    exact Real.sqrt_sq (le_of_lt hR)
  have harg : hav_arg (2 * Real.pi * earthRadius) 0 0 = 1 := by
    unfold hav_arg
    rw [hd, show 2 * Real.pi * earthRadius / (2 * earthRadius) = Real.pi by
      unfold earthRadius; field_simp; ring]
    rw [Real.sin_pi]
    norm_num [deg2rad]
  refine ⟨?_, hR⟩
  simp only [inverse_hav, harg]
  rw [if_neg (by norm_num [deg2rad]), if_pos (by norm_num)]
  simp [not_lt.mpr (le_of_lt hR)]
  right
  unfold rad2deg
  ring

/-- C8 (amended): the latitude is always unchanged for a purely zonal
displacement, and the longitude shift has the sign of dx whenever the
displacement is in the haversine formula's domain: the half-angle sine is
nonzero (dx is not a multiple of the full circumference) and its square is
at most the squared cosine of the latitude (so the arccos argument stays at
least -1).  Outside that domain the counterexample applies. -/
theorem c8_longitude_sign_in_domain (dx lon0 lat0 : ℝ) (hdx : dx ≠ 0)
    (hs : Real.sin (|dx| / (2 * earthRadius)) ≠ 0)
    (hd : Real.sin (|dx| / (2 * earthRadius)) ^ 2 ≤ Real.cos (deg2rad lat0) ^ 2) :
    (inverse_hav dx 0 (some lon0) lat0).2 = lat0 ∧
    ∃ L, (inverse_hav dx 0 (some lon0) lat0).1 = some L ∧
      (0 < dx → lon0 < L) ∧ (dx < 0 → L < lon0) := by
  have hc : Real.cos (deg2rad lat0) ≠ 0 := by
    intro h0
    rw [h0] at hd
    have hz : Real.sin (|dx| / (2 * earthRadius)) ^ 2 = 0 :=
      le_antisymm (by simpa using hd) (sq_nonneg _)
    exact hs (pow_eq_zero_iff two_ne_zero |>.mp hz)
  have hcc : 0 < Real.cos (deg2rad lat0) * Real.cos (deg2rad lat0) :=
    mul_self_pos.mpr hc
  have hsq : 0 < Real.sin (|dx| / (2 * earthRadius)) ^ 2 :=
    lt_of_le_of_ne (sq_nonneg _) (Ne.symm (pow_ne_zero 2 hs))
  have habs : Real.sqrt (dx ^ 2 + 0 ^ 2) = |dx| := by
    rw [show dx ^ 2 + (0 : ℝ) ^ 2 = dx ^ 2 by ring]
    exact Real.sqrt_sq_eq_abs dx
  have hlat2 : lat0 + (0 : ℝ) / 111.11e3 = lat0 := by norm_num
  have hargeq : hav_arg dx 0 lat0 = 1 - 2 * (Real.sin (|dx| / (2 * earthRadius)) ^ 2
      / (Real.cos (deg2rad lat0) * Real.cos (deg2rad lat0))) := by
    unfold hav_arg
    rw [habs, hlat2, sub_self, zero_div, Real.sin_zero]
    ring
  have harg_lt : hav_arg dx 0 lat0 < 1 := by
    rw [hargeq]
    have : 0 < Real.sin (|dx| / (2 * earthRadius)) ^ 2
        / (Real.cos (deg2rad lat0) * Real.cos (deg2rad lat0)) := div_pos hsq hcc
    linarith
  have harg_le : hav_arg dx 0 lat0 ≤ 1 := le_of_lt harg_lt
  have harg_ge : -1 ≤ hav_arg dx 0 lat0 := by
    rw [hargeq]
    have hle : Real.sin (|dx| / (2 * earthRadius)) ^ 2
        / (Real.cos (deg2rad lat0) * Real.cos (deg2rad lat0)) ≤ 1 := by
      rw [div_le_one hcc]
      calc Real.sin (|dx| / (2 * earthRadius)) ^ 2
          ≤ Real.cos (deg2rad lat0) ^ 2 := hd
        _ = Real.cos (deg2rad lat0) * Real.cos (deg2rad lat0) := sq (Real.cos _) ▸ by ring
    linarith
  have hsh : 0 < 0.5 * rad2deg (Real.arccos (hav_arg dx 0 lat0)) := by
    have h1 : 0 < Real.arccos (hav_arg dx 0 lat0) := Real.arccos_pos.mpr harg_lt
    unfold rad2deg
    have h2 : 0 < (180 : ℝ) / Real.pi := by positivity
    nlinarith
  constructor
  · rw [inverse_hav_snd]
    norm_num
  · refine ⟨if dx < 0 then lon0 - 0.5 * rad2deg (Real.arccos (hav_arg dx 0 lat0))
      else lon0 + 0.5 * rad2deg (Real.arccos (hav_arg dx 0 lat0)), ?_, ?_, ?_⟩
    · simp only [inverse_hav, hlat2]
      rw [if_neg (ne_of_gt hcc), if_pos ⟨harg_ge, harg_le⟩]
    · intro hpos
      rw [if_neg (not_lt.mpr (le_of_lt hpos))]
      linarith
    · intro hneg
      rw [if_pos hneg]
      linarith

/-- Witness for c8_longitude_sign_in_domain at dx = 1000, lon0 = lat0 = 0:
the hypotheses hold there (the half-angle is in (0, π) so its sine is
positive, and the squared sine is at most 1 = cos² 0). -/
theorem c8_longitude_sign_in_domain_witness :
    (inverse_hav 1000 0 (some 0) 0).2 = 0 ∧
    ∃ L, (inverse_hav 1000 0 (some 0) 0).1 = some L ∧
      ((0 : ℝ) < 1000 → (0 : ℝ) < L) ∧ ((1000 : ℝ) < 0 → L < (0 : ℝ)) := by
  have habs : |(1000 : ℝ)| = 1000 := abs_of_pos (by norm_num)
  have hs : Real.sin (|(1000 : ℝ)| / (2 * earthRadius)) ≠ 0 := by
    rw [habs]
    refine ne_of_gt (Real.sin_pos_of_pos_of_lt_pi ?_ ?_)
    · unfold earthRadius
      norm_num
    · unfold earthRadius
      nlinarith [Real.pi_gt_three]
  have hd : Real.sin (|(1000 : ℝ)| / (2 * earthRadius)) ^ 2
      ≤ Real.cos (deg2rad 0) ^ 2 := by
    rw [show deg2rad 0 = 0 by unfold deg2rad; ring, Real.cos_zero, one_pow]
    exact Real.sin_sq_le_one _
  exact c8_longitude_sign_in_domain 1000 0 0 (by norm_num) hs hd

end

end RayTracing
